import Mathlib

/-!
# Trading-signals scanner: shallow embedding

Embedding of the scan orchestration and signal-evaluation engine of the
trading-signals service (`src/api.py`, `src/sma50.py`, `src/ema_daily.py`).
Prices are modelled as exact rationals, pandas frames as Lists, `None` as
`Option.none`, exceptions as explicit outcome values, and the background
worker as an explicit sequence of job-store states.
-/

/-- Python's built-in `round` on an exact value: round half to even. -/
def pyRound (x : ℚ) : ℤ :=
  let f : ℤ := ⌊x⌋
  if x - f < 1 / 2 then f
  else if x - f > 1 / 2 then f + 1
  else if f % 2 = 0 then f else f + 1

/-- `round(x, 2)` — two decimal places. -/
def round2 (x : ℚ) : ℚ := (pyRound (x * 100) : ℚ) / 100

/-- `round(x, 1)` — one decimal place, used for job `percent`. -/
def round1 (x : ℚ) : ℚ := (pyRound (x * 10) : ℚ) / 10

/-- The recursive part of pandas `ewm(span, adjust=False).mean()`:
`e_i = a * p_i + (1 - a) * e_(i-1)`, carrying the running value `e`. -/
def ewmFrom (a e : ℚ) : List ℚ → List ℚ
  | [] => []
  | p :: ps => (a * p + (1 - a) * e) :: ewmFrom a (a * p + (1 - a) * e) ps

/-- pandas `Series.ewm(span=period, adjust=False).mean()`: smoothing factor
`2/(period+1)`, seeded at the first value.  With `adjust=False` the column is
defined at every index — it has no NaN warm-up region. -/
def ewmMean (period : ℕ) : List ℚ → List ℚ
  | [] => []
  | p :: ps => p :: ewmFrom ((2 : ℚ) / (period + 1)) p ps

/-- `calculate_ema` (src/api.py lines 68-71; identical in src/ema_daily.py):
`None` when the series is shorter than the period, else the `ewm` mean. -/
def calculate_ema (prices : List ℚ) (period : ℕ) : Option (List ℚ) :=
  if prices.length < period then none
  else some (ewmMean period prices)

/-- pandas `Series.rolling(window=period).mean()`: the entry at index `i` is
the mean of the trailing `period` values when `i + 1 ≥ period`, NaN (`none`)
inside the warm-up region. -/
def rollingMean (prices : List ℚ) (period : ℕ) : List (Option ℚ) :=
  (List.range prices.length).map fun i =>
    if period ≤ i + 1 then some ((((prices.take (i + 1)).drop (i + 1 - period)).sum) / period)
    else none

/-- `calculate_sma` (src/api.py lines 74-77; identical in src/sma50.py):
`None` when the series is shorter than the period, else the rolling mean. -/
def calculate_sma (prices : List ℚ) (period : ℕ := 50) : Option (List (Option ℚ)) :=
  if prices.length < period then none
  else some (rollingMean prices period)

/-- The signal record built by `analyze_ema_daily` / `analyze_ema_weekly`
(src/api.py lines 137-146 and 190-199). -/
structure EmaSignal where
  symbol : String
  signal : String
  timeframe : String
  price : ℚ
  ema10 : ℚ
  ema20 : ℚ
  ema40 : ℚ
  condition : String
deriving DecidableEq

/-- `analyze_ema_daily` (src/api.py lines 103-149), with the fetched 6-month
daily close series passed explicitly in place of the `fetch_history` call.
With `adjust=False` the EMA columns carry no NaN, so
`dropna(subset=["EMA10","EMA20","EMA40"])` removes no row when the three
`calculate_ema` calls succeed; had any returned `None`, the assigned column
would be all-NaN and `dropna` would empty the frame (the `len < 2` exit). -/
def analyze_ema_daily (symbol : String) (closes : List ℚ) : Option EmaSignal :=
  if closes = [] ∨ closes.length < 41 then none
  else
    match calculate_ema closes 10, calculate_ema closes 20, calculate_ema closes 40 with
    | some ema10s, some ema20s, some ema40s =>
      if closes.length < 2 then none
      else
        let price := round2 (closes.getLastD 0)
        let ema10 := round2 (ema10s.getLastD 0)
        let ema20 := round2 (ema20s.getLastD 0)
        let ema40 := round2 (ema40s.getLastD 0)
        let prev_close := closes.dropLast.getLastD 0
        let prev_ema10 := ema10s.dropLast.getLastD 0
        if price > ema10 ∧ price > ema20 ∧ price > ema40 ∧ prev_close < prev_ema10 ∧
            ema20 > ema40 ∧ ema10 > ema20 then
          some { symbol := symbol, signal := "BULLISH", timeframe := "daily",
                 price := price, ema10 := ema10, ema20 := ema20, ema40 := ema40,
                 condition := "Fresh crossover above EMA10 · EMAs stacked bullish" }
        else none
    | _, _, _ => none

/-- `analyze_ema_weekly` (src/api.py lines 156-202), with the fetched 2-year
weekly close series passed explicitly; same rule as the daily variant, the
`timeframe` field being `"weekly"`. -/
def analyze_ema_weekly (symbol : String) (closes : List ℚ) : Option EmaSignal :=
  if closes = [] ∨ closes.length < 41 then none
  else
    match calculate_ema closes 10, calculate_ema closes 20, calculate_ema closes 40 with
    | some ema10s, some ema20s, some ema40s =>
      if closes.length < 2 then none
      else
        let price := round2 (closes.getLastD 0)
        let ema10 := round2 (ema10s.getLastD 0)
        let ema20 := round2 (ema20s.getLastD 0)
        let ema40 := round2 (ema40s.getLastD 0)
        let prev_close := closes.dropLast.getLastD 0
        let prev_ema10 := ema10s.dropLast.getLastD 0
        if price > ema10 ∧ price > ema20 ∧ price > ema40 ∧ prev_close < prev_ema10 ∧
            ema20 > ema40 ∧ ema10 > ema20 then
          some { symbol := symbol, signal := "BULLISH", timeframe := "weekly",
                 price := price, ema10 := ema10, ema20 := ema20, ema40 := ema40,
                 condition := "Fresh crossover above EMA10 · EMAs stacked bullish" }
        else none
    | _, _, _ => none

/-- The signal record built by `analyze_sma50` (src/api.py lines 244-255).
The price/SMA fields hold the (optional) values returned by
`_get_sma_position`, exactly as the Python dict stores them. -/
structure Sma50Signal where
  symbol : String
  signal : String
  timeframe : String
  daily_price : Option ℚ
  daily_sma50 : Option ℚ
  hourly_price : Option ℚ
  hourly_sma50 : Option ℚ
  min15_price : Option ℚ
  min15_sma50 : Option ℚ
  condition : String
deriving DecidableEq

/-- `_get_sma_position` (src/api.py lines 209-231).  The market data is
supplied as `fetch : interval ↦ close series`; the `periods` dict only maps
each supported interval to the window string passed to `fetch_history`, so it
is absorbed into `fetch` — its membership test is kept.  A `None` result from
`calculate_sma` would make the assigned `SMA50` column all-NaN and `dropna`
would empty the frame, hence the `none` branch of the match. -/
def _get_sma_position (fetch : String → List ℚ) (interval : String) :
    Option String × Option ℚ × Option ℚ :=
  if ¬ (interval = "1d" ∨ interval = "1h" ∨ interval = "15m") then (none, none, none)
  else
    let closes := fetch interval
    if closes = [] ∨ closes.length < 51 then (none, none, none)
    else
      match calculate_sma closes 50 with
      | none => (none, none, none)
      | some smaCol =>
        let rows := (closes.zip smaCol).filterMap fun cs => cs.2.map fun v => (cs.1, v)
        if rows = [] then (none, none, none)
        else
          let price := round2 (rows.getLastD (0, 0)).1
          let sma := round2 (rows.getLastD (0, 0)).2
          (some (if price > sma then "above" else "below"), some price, some sma)

/-- `analyze_sma50` (src/api.py lines 234-258): the integrated (job-system)
multi-timeframe evaluator, bullish-only. -/
def analyze_sma50 (symbol : String) (fetch : String → List ℚ) : Option Sma50Signal :=
  let d := _get_sma_position fetch "1d"
  let h := _get_sma_position fetch "1h"
  let m := _get_sma_position fetch "15m"
  if d.1 = none ∨ h.1 = none ∨ m.1 = none then none
  else if d.1 = some "above" ∧ h.1 = some "above" ∧ m.1 = some "above" then
    some { symbol := symbol, signal := "BULLISH", timeframe := "daily+1h+15m",
           daily_price := d.2.1, daily_sma50 := d.2.2,
           hourly_price := h.2.1, hourly_sma50 := h.2.2,
           min15_price := m.2.1, min15_sma50 := m.2.2,
           condition := "Price above SMA50 on Daily + 1HR + 15min" }
  else none

/-- The record built by `analyze_multi_timeframe` (src/sma50.py lines 89-115);
field names adjusted only where Lean forbids a leading digit. -/
structure MultiTFSignal where
  Symbol : String
  Signal : String
  Daily_Price : Option ℚ
  Daily_SMA50 : Option ℚ
  HR1_Price : Option ℚ
  HR1_SMA50 : Option ℚ
  Min15_Price : Option ℚ
  Min15_SMA50 : Option ℚ
  Daily : String
  HR1 : String
  Min15 : String
deriving DecidableEq

/-- `get_sma_position` (src/sma50.py lines 30-67): the standalone variant,
with an if/elif interval dispatch and a `len(df) < 1` emptiness check —
extensionally the same position computation as `_get_sma_position`. -/
def get_sma_position (fetch : String → List ℚ) (interval : String) :
    Option String × Option ℚ × Option ℚ :=
  if interval = "1d" ∨ interval = "1h" ∨ interval = "15m" then
    let closes := fetch interval
    if closes = [] ∨ closes.length < 51 then (none, none, none)
    else
      match calculate_sma closes 50 with
      | none => (none, none, none)
      | some smaCol =>
        let rows := (closes.zip smaCol).filterMap fun cs => cs.2.map fun v => (cs.1, v)
        if rows.length < 1 then (none, none, none)
        else
          let price := round2 (rows.getLastD (0, 0)).1
          let sma := round2 (rows.getLastD (0, 0)).2
          (some (if price > sma then "above" else "below"), some price, some sma)
  else (none, none, none)

/-- `analyze_multi_timeframe` (src/sma50.py lines 69-120): the standalone
evaluator, detecting both the all-above bullish and the all-below bearish
alignments. -/
def analyze_multi_timeframe (symbol : String) (fetch : String → List ℚ) :
    Option MultiTFSignal :=
  let daily := get_sma_position fetch "1d"
  let hourly := get_sma_position fetch "1h"
  let min15 := get_sma_position fetch "15m"
  if daily.1 = none ∨ hourly.1 = none ∨ min15.1 = none then none
  else
    let all_above := daily.1 = some "above" ∧ hourly.1 = some "above" ∧ min15.1 = some "above"
    let all_below := daily.1 = some "below" ∧ hourly.1 = some "below" ∧ min15.1 = some "below"
    if all_above then
      some { Symbol := symbol, Signal := "🟢 BULLISH (All Above SMA50)",
             Daily_Price := daily.2.1, Daily_SMA50 := daily.2.2,
             HR1_Price := hourly.2.1, HR1_SMA50 := hourly.2.2,
             Min15_Price := min15.2.1, Min15_SMA50 := min15.2.2,
             Daily := "✅ Above", HR1 := "✅ Above", Min15 := "✅ Above" }
    else if all_below then
      some { Symbol := symbol, Signal := "🔴 BEARISH (All Below SMA50)",
             Daily_Price := daily.2.1, Daily_SMA50 := daily.2.2,
             HR1_Price := hourly.2.1, HR1_SMA50 := hourly.2.2,
             Min15_Price := min15.2.1, Min15_SMA50 := min15.2.2,
             Daily := "❌ Below", HR1 := "❌ Below", Min15 := "❌ Below" }
    else none

/-- One provider attempt inside `fetch_history`: either the `yf` call raises,
or it returns a frame (here its close series; only emptiness matters). -/
inductive FetchOutcome where
  | raises : FetchOutcome
  | returns : List ℚ → FetchOutcome
deriving DecidableEq

/-- The frame a single attempt contributes: `some df` exactly when the call
returned without raising and the frame is non-empty. -/
def attemptResult (o : FetchOutcome) : Option (List ℚ) :=
  match o with
  | .returns df => if df ≠ [] then some df else none
  | .raises => none

/-- The retry loop of `fetch_history` (src/api.py lines 85-96), from a given
attempt index: returns the fetched frame (empty on exhaustion, line 96)
together with the log of `time.sleep` durations, `2 ^ attempt` slept exactly
when the attempt fails and `attempt < max_retries - 1`. -/
def fetchLoop (outcomes : ℕ → FetchOutcome) (max_retries : ℕ) (attempt : ℕ) :
    List ℚ × List ℕ :=
  if _h : attempt < max_retries then
    match outcomes attempt with
    | .returns df =>
      if df ≠ [] then (df, [])
      else
        let rest := fetchLoop outcomes max_retries (attempt + 1)
        (rest.1, (if attempt < max_retries - 1 then [2 ^ attempt] else []) ++ rest.2)
    | .raises =>
      let rest := fetchLoop outcomes max_retries (attempt + 1)
      (rest.1, (if attempt < max_retries - 1 then [2 ^ attempt] else []) ++ rest.2)
  else ([], [])
termination_by max_retries - attempt

/-- `fetch_history` (src/api.py lines 80-96), the provider abstracted into the
per-attempt outcome sequence. -/
def fetch_history (outcomes : ℕ → FetchOutcome) (max_retries : ℕ := 3) :
    List ℚ × List ℕ :=
  fetchLoop outcomes max_retries 0

/-- A job-store entry, as created by `start_scan` (src/api.py lines 368-378)
and mutated by `_run_scan`; the `error` key, absent until a failure, is an
`Option`.  `α` is the per-scan result record type. -/
structure Job (α : Type) where
  job_id : String
  scan_type : String
  label : String
  status : String
  progress : ℕ
  total : ℕ
  results : List α
  started_at : String
  completed_at : Option String
  error : Option String
deriving DecidableEq

/-- The freshly created job dict of `start_scan` (src/api.py lines 368-378). -/
def initJob (α : Type) (jid scanType label started_at : String) : Job α :=
  { job_id := jid, scan_type := scanType, label := label, status := "queued",
    progress := 0, total := 0, results := [], started_at := started_at,
    completed_at := none, error := none }

/-- The `failed` update of `_run_scan` (src/api.py line 275). -/
def failedUpdate {α : Type} (j : Job α) : Job α :=
  { j with status := "failed", error := some "top_indices_symbols.txt not found" }

/-- The `running` update of `_run_scan` (src/api.py line 282). -/
def runningUpdate {α : Type} (total : ℕ) (j : Job α) : Job α :=
  { j with status := "running", total := total, progress := 0 }

/-- The job states observed after each iteration of the `_run_scan` symbol
loop (src/api.py lines 284-291): `progress` set to the 1-based index `i`,
`results` to the list accumulated so far. -/
def loopStates {α : Type} (eval : String → Option α) :
    List String → ℕ → List α → Job α → List (Job α)
  | [], _, _, _ => []
  | s :: rest, i, acc, j =>
    let acc2 := acc ++ (eval s).toList
    let j2 := { j with progress := i, results := acc2 }
    j2 :: loopStates eval rest (i + 1) acc2 j2

/-- The completion update of `_run_scan` (src/api.py lines 293-298); the
`results` it re-assigns are the ones the last iteration already stored. -/
def completedUpdate {α : Type} (now : String) (j : Job α) : Job α :=
  { j with status := "completed", completed_at := some now }

/-- The sequence of job-store states `_run_scan` (src/api.py lines 272-298)
writes for its job after creation: the single `failed` state when the symbol
universe is empty, else the `running` state, one state per symbol iteration,
and the final `completed` state. -/
def runScanStates {α : Type} (eval : String → Option α) (now : String)
    (symbols : List String) (j : Job α) : List (Job α) :=
  if symbols = [] then [failedUpdate j]
  else
    let jr := runningUpdate symbols.length j
    let body := loopStates eval symbols 1 [] jr
    jr :: (body ++ [completedUpdate now (body.getLastD jr)])

/-- The `HTTPException`s the endpoints raise. -/
inductive ApiError where
  | notFound : String → ApiError
  | badRequest : String → ApiError
deriving DecidableEq

/-- The response dict of `scan_status` (src/api.py lines 401-415). -/
structure StatusResponse (α : Type) where
  job_id : String
  scan_type : String
  label : String
  status : String
  progress : ℕ
  total : ℕ
  percent : ℚ
  results_so_far : ℕ
  results_count : ℕ
  started_at : String
  completed_at : Option String
  results : List α
deriving DecidableEq

/-- `scan_status` (src/api.py lines 391-416) over an association-list job
store: 404 on an unknown id, else the live snapshot with
`percent = round(progress/total*100, 1) if total else 0`. -/
def scan_status {α : Type} (jobsStore : List (String × Job α)) (job_id : String) :
    Except ApiError (StatusResponse α) :=
  match jobsStore.lookup job_id with
  | none => .error (.notFound "Job not found")
  | some job =>
    let pct : ℚ := if job.total ≠ 0 then round1 ((job.progress : ℚ) / job.total * 100) else 0
    .ok { job_id := job_id, scan_type := job.scan_type, label := job.label,
          status := job.status, progress := job.progress, total := job.total,
          percent := pct, results_so_far := job.results.length,
          results_count := job.results.length, started_at := job.started_at,
          completed_at := job.completed_at, results := job.results }

/-- The response dict of `scan_results` (src/api.py lines 426-436). -/
structure ResultsResponse (α : Type) where
  job_id : String
  scan_type : String
  label : String
  status : String
  total_scanned : ℕ
  results_count : ℕ
  results : List α
  started_at : String
  completed_at : Option String
deriving DecidableEq

/-- `scan_results` (src/api.py lines 419-436): 404 on an unknown id, else the
full (possibly still partial) results view. -/
def scan_results {α : Type} (jobsStore : List (String × Job α)) (job_id : String) :
    Except ApiError (ResultsResponse α) :=
  match jobsStore.lookup job_id with
  | none => .error (.notFound "Job not found")
  | some job =>
    .ok { job_id := job_id, scan_type := job.scan_type, label := job.label,
          status := job.status, total_scanned := job.progress,
          results_count := job.results.length, results := job.results,
          started_at := job.started_at, completed_at := job.completed_at }

/-- A `latest_results` snapshot, as written by `_run_scan` on completion
(src/api.py lines 301-308). -/
structure Snapshot (α : Type) where
  scan_type : String
  label : String
  completed_at : String
  total_scanned : ℕ
  results_count : ℕ
  results : List α
deriving DecidableEq

/-- `latest_scan_results` (src/api.py lines 439-450) over an association-list
`latest_results` store: 400 on a scan type outside `SCAN_CONFIG`, 404 when no
scan of that type has completed yet, else the stored snapshot. -/
def latest_scan_results {α : Type} (latest : List (String × Snapshot α))
    (scan_type : String) : Except ApiError (Snapshot α) :=
  if ¬ (scan_type = "ema_daily" ∨ scan_type = "ema_weekly" ∨ scan_type = "sma50") then
    .error (.badRequest "Unknown scan_type")
  else
    match latest.lookup scan_type with
    | none => .error (.notFound "No completed scan found for this type yet. Run a scan first.")
    | some snap => .ok snap

/-- One entry of the `list_jobs` summary (src/api.py lines 459-468). -/
structure JobSummary where
  job_id : String
  scan_type : String
  label : String
  status : String
  percent : ℚ
  results_count : ℕ
  started_at : String
  completed_at : Option String
deriving DecidableEq

/-- The summary dict `list_jobs` builds for one store entry
(src/api.py lines 458-468), with the same guarded `percent`. -/
def summarizeJob {α : Type} (entry : String × Job α) : JobSummary :=
  let job := entry.2
  { job_id := entry.1, scan_type := job.scan_type, label := job.label,
    status := job.status,
    percent := if job.total ≠ 0 then round1 ((job.progress : ℚ) / job.total * 100) else 0,
    results_count := job.results.length, started_at := job.started_at,
    completed_at := job.completed_at }

/-- `list_jobs` (src/api.py lines 453-469): every store entry summarized,
sorted most recently started first. -/
def list_jobs {α : Type} (jobsStore : List (String × Job α)) : List JobSummary :=
  (jobsStore.map summarizeJob).mergeSort fun a b => b.started_at ≤ a.started_at

/-- Concrete provider behaviour used to exercise `fetch_history`: the first
attempt raises, every later attempt returns the one-bar frame `[5]`. -/
def sampleOutcomes : ℕ → FetchOutcome := fun i => if i = 0 then .raises else .returns [5]

/-- Concrete market data used to exercise the SMA evaluators: every interval
yields 51 bars closing at 1, so close and SMA50 round to the same value. -/
def onesFetch : String → List ℚ := fun _ => List.replicate 51 1

/-- **C7.** For every price series strictly shorter than the requested period,
`calculate_ema` and `calculate_sma` return `None`, never a numeric value; for
series of sufficient length both are defined, and both are deterministic pure
functions of their input series. -/
theorem short_series_undefined (prices : List ℚ) (period : ℕ) :
    (calculate_ema prices period = none ↔ prices.length < period) ∧
    (calculate_sma prices period = none ↔ prices.length < period) ∧
    (∀ qs : List ℚ, prices = qs →
      calculate_ema prices period = calculate_ema qs period ∧
      calculate_sma prices period = calculate_sma qs period) := by
  refine ⟨?_, ?_, fun qs h => by subst h; exact ⟨rfl, rfl⟩⟩
  · unfold calculate_ema; split <;> simp_all
  · unfold calculate_sma; split <;> simp_all

/-- Witness for C7 at a concrete short series. -/
theorem short_series_undefined_witness :
    calculate_ema [1, 2] 3 = none ∧ calculate_sma [1, 2] 50 = none :=
  ⟨(short_series_undefined [1, 2] 3).1.mpr (by decide),
   (short_series_undefined [1, 2] 50).2.1.mpr (by decide)⟩

lemma fetchLoop_first_success (outcomes : ℕ → FetchOutcome) (m : ℕ) :
    ∀ k a df, a + k < m → attemptResult (outcomes (a + k)) = some df →
      (∀ j, a ≤ j → j < a + k → attemptResult (outcomes j) = none) →
      fetchLoop outcomes m a = (df, (List.range' a k).map (2 ^ ·)) := by
  intro k
  induction k with
  | zero =>
    intro a df ham hsucc _
    simp only [Nat.add_zero] at ham hsucc
    rw [fetchLoop, dif_pos ham]
    cases ho : outcomes a with
    | raises => rw [ho] at hsucc; simp [attemptResult] at hsucc
    | returns df2 =>
      rw [ho] at hsucc
      unfold attemptResult at hsucc
      by_cases hdf : df2 = []
      · simp [hdf] at hsucc
      · simp only [ne_eq, hdf, not_false_eq_true, if_true] at hsucc
        cases hsucc
        simp [hdf, List.range']
  | succ n ih =>
    intro a df ham hsucc hfail
    have hfa : attemptResult (outcomes a) = none := hfail a (Nat.le_refl a) (by omega)
    have hrest : fetchLoop outcomes m (a + 1) = (df, (List.range' (a + 1) n).map (2 ^ ·)) := by
      apply ih
      · omega
      · have : a + 1 + n = a + (n + 1) := by omega
        rw [this]; exact hsucc
      · intro j h1 h2; exact hfail j (by omega) (by omega)
    rw [fetchLoop, dif_pos (by omega : a < m)]
    have hsleep : a < m - 1 := by omega
    cases ho : outcomes a with
    | raises =>
      simp only [hrest, if_pos hsleep, List.range'_succ, List.map_cons,
        List.singleton_append]
    | returns df2 =>
      rw [ho] at hfa
      unfold attemptResult at hfa
      by_cases hdf : df2 = []
      · simp only [ne_eq, hdf, not_true_eq_false, if_false, hrest, if_pos hsleep,
          List.range'_succ, List.map_cons, List.singleton_append]
      · simp [hdf] at hfa
    
lemma fetchLoop_exhausted (outcomes : ℕ → FetchOutcome) (m : ℕ) :
    ∀ k a, m ≤ a + k → (∀ j, a ≤ j → j < m → attemptResult (outcomes j) = none) →
      fetchLoop outcomes m a = ([], (List.range' a (m - 1 - a)).map (2 ^ ·)) := by
  intro k
  induction k with
  | zero =>
    intro a ham _
    rw [fetchLoop, dif_neg (by omega)]
    have : m - 1 - a = 0 := by omega
    simp [this]
  | succ n ih =>
    intro a ham hfail
    by_cases haltm : a < m
    · have hfa : attemptResult (outcomes a) = none := hfail a (Nat.le_refl a) haltm
      have hrest : fetchLoop outcomes m (a + 1) =
          ([], (List.range' (a + 1) (m - 1 - (a + 1))).map (2 ^ ·)) :=
        ih (a + 1) (by omega) (fun j h1 h2 => hfail j (by omega) h2)
      rw [fetchLoop, dif_pos haltm]
      by_cases hsleep : a < m - 1
      · have hlen : m - 1 - a = (m - 1 - (a + 1)) + 1 := by omega
        cases ho : outcomes a with
        | raises =>
          simp only [hrest, if_pos hsleep, hlen, List.range'_succ, List.map_cons,
            List.singleton_append]
        | returns df2 =>
          rw [ho] at hfa
          unfold attemptResult at hfa
          by_cases hdf : df2 = []
          · simp only [ne_eq, hdf, not_true_eq_false, if_false, hrest, if_pos hsleep,
              hlen, List.range'_succ, List.map_cons, List.singleton_append]
          · simp [hdf] at hfa
      · have hlast : m - 1 - a = 0 := by omega
        have hrest0 : m - 1 - (a + 1) = 0 := by omega
        rw [hrest0] at hrest
        cases ho : outcomes a with
        | raises => simp only [hrest, if_neg hsleep, hlast]; simp
        | returns df2 =>
          rw [ho] at hfa
          unfold attemptResult at hfa
          by_cases hdf : df2 = []
          · simp only [ne_eq, hdf, not_true_eq_false, if_false, hrest, if_neg hsleep, hlast]
            simp
          · simp [hdf] at hfa
    · rw [fetchLoop, dif_neg haltm]
      have : m - 1 - a = 0 := by omega
      simp [this]

/-- **C2.** `fetch_history` never raises to its caller: it is a total
function of the attempt outcomes; it returns the first non-empty frame an
attempt yields, having slept `2^attempt` seconds (1, 2, 4, …) after each
earlier failed (empty or raising) attempt; and after all `max_retries`
attempts fail — including a fault on the final attempt, after which no sleep
occurs — it returns the empty frame. -/
theorem fetch_history_retry_spec (outcomes : ℕ → FetchOutcome) (max_retries : ℕ) :
    (∀ i df, i < max_retries → attemptResult (outcomes i) = some df →
      (∀ j, j < i → attemptResult (outcomes j) = none) →
      fetch_history outcomes max_retries = (df, (List.range i).map (2 ^ ·))) ∧
    ((∀ i, i < max_retries → attemptResult (outcomes i) = none) →
      fetch_history outcomes max_retries =
        ([], (List.range (max_retries - 1)).map (2 ^ ·))) := by
  constructor
  · intro i df hi hs hf
    have h := fetchLoop_first_success outcomes max_retries i 0 df
      (by omega) (by simpa using hs) (fun j _ hj => hf j (by omega))
    simpa [fetch_history, List.range_eq_range'] using h
  · intro hall
    have h := fetchLoop_exhausted outcomes max_retries max_retries 0 (by omega)
      (fun j _ hj => hall j hj)
    simpa [fetch_history, List.range_eq_range'] using h

/-- Witness for C2: the first attempt raises, the second returns `[5]`;
`fetch_history` yields `[5]` after a single 1-second sleep. -/
theorem fetch_history_retry_spec_witness :
    fetch_history sampleOutcomes 3 = ([5], [1]) := by
  have h := (fetch_history_retry_spec sampleOutcomes 3).1 1 [5]
    (by decide) (by decide) (by decide)
  simpa using h

lemma analyze_ema_daily_eq (symbol : String) (closes : List ℚ) (h : 41 ≤ closes.length) :
    analyze_ema_daily symbol closes =
      if round2 (closes.getLastD 0) > round2 ((ewmMean 10 closes).getLastD 0) ∧
         round2 (closes.getLastD 0) > round2 ((ewmMean 20 closes).getLastD 0) ∧
         round2 (closes.getLastD 0) > round2 ((ewmMean 40 closes).getLastD 0) ∧
         closes.dropLast.getLastD 0 < (ewmMean 10 closes).dropLast.getLastD 0 ∧
         round2 ((ewmMean 20 closes).getLastD 0) > round2 ((ewmMean 40 closes).getLastD 0) ∧
         round2 ((ewmMean 10 closes).getLastD 0) > round2 ((ewmMean 20 closes).getLastD 0)
      then some { symbol := symbol, signal := "BULLISH", timeframe := "daily",
                  price := round2 (closes.getLastD 0),
                  ema10 := round2 ((ewmMean 10 closes).getLastD 0),
                  ema20 := round2 ((ewmMean 20 closes).getLastD 0),
                  ema40 := round2 ((ewmMean 40 closes).getLastD 0),
                  condition := "Fresh crossover above EMA10 · EMAs stacked bullish" }
      else none := by
  have hne : ¬(closes = [] ∨ closes.length < 41) := by
    rintro (rfl | hlt)
    · simp at h
    · omega
  have h10 : calculate_ema closes 10 = some (ewmMean 10 closes) := by
    unfold calculate_ema; rw [if_neg (by omega)]
  have h20 : calculate_ema closes 20 = some (ewmMean 20 closes) := by
    unfold calculate_ema; rw [if_neg (by omega)]
  have h40 : calculate_ema closes 40 = some (ewmMean 40 closes) := by
    unfold calculate_ema; rw [if_neg (by omega)]
  simp only [analyze_ema_daily, h10, h20, h40]
  rw [if_neg hne, if_neg (show ¬ closes.length < 2 by omega)]

lemma analyze_ema_weekly_eq (symbol : String) (closes : List ℚ) (h : 41 ≤ closes.length) :
    analyze_ema_weekly symbol closes =
      if round2 (closes.getLastD 0) > round2 ((ewmMean 10 closes).getLastD 0) ∧
         round2 (closes.getLastD 0) > round2 ((ewmMean 20 closes).getLastD 0) ∧
         round2 (closes.getLastD 0) > round2 ((ewmMean 40 closes).getLastD 0) ∧
         closes.dropLast.getLastD 0 < (ewmMean 10 closes).dropLast.getLastD 0 ∧
         round2 ((ewmMean 20 closes).getLastD 0) > round2 ((ewmMean 40 closes).getLastD 0) ∧
         round2 ((ewmMean 10 closes).getLastD 0) > round2 ((ewmMean 20 closes).getLastD 0)
      then some { symbol := symbol, signal := "BULLISH", timeframe := "weekly",
                  price := round2 (closes.getLastD 0),
                  ema10 := round2 ((ewmMean 10 closes).getLastD 0),
                  ema20 := round2 ((ewmMean 20 closes).getLastD 0),
                  ema40 := round2 ((ewmMean 40 closes).getLastD 0),
                  condition := "Fresh crossover above EMA10 · EMAs stacked bullish" }
      else none := by
  have hne : ¬(closes = [] ∨ closes.length < 41) := by
    rintro (rfl | hlt)
    · simp at h
    · omega
  have h10 : calculate_ema closes 10 = some (ewmMean 10 closes) := by
    unfold calculate_ema; rw [if_neg (by omega)]
  have h20 : calculate_ema closes 20 = some (ewmMean 20 closes) := by
    unfold calculate_ema; rw [if_neg (by omega)]
  have h40 : calculate_ema closes 40 = some (ewmMean 40 closes) := by
    unfold calculate_ema; rw [if_neg (by omega)]
  simp only [analyze_ema_weekly, h10, h20, h40]
  rw [if_neg hne, if_neg (show ¬ closes.length < 2 by omega)]

/-- **C1.** For both the daily and the weekly EMA crossover evaluators: when
the fetched series has at least 41 bars (so that, the `adjust=False` EMA
columns having no NaN, at least 2 rows survive the warm-up drop), the
evaluator returns a signal record iff all six conditions hold on the
2-decimal-rounded last close and EMA10/20/40 and on the raw second-to-last
close and EMA10; when the precondition fails it returns no signal; and every
record either evaluator ever returns is bullish — no bearish variant exists. -/
theorem ema_crossover_spec (symbol : String) (closes : List ℚ) :
    (41 ≤ closes.length →
      (((∃ r, analyze_ema_daily symbol closes = some r) ↔
          (round2 (closes.getLastD 0) > round2 ((ewmMean 10 closes).getLastD 0) ∧
           round2 (closes.getLastD 0) > round2 ((ewmMean 20 closes).getLastD 0) ∧
           round2 (closes.getLastD 0) > round2 ((ewmMean 40 closes).getLastD 0) ∧
           closes.dropLast.getLastD 0 < (ewmMean 10 closes).dropLast.getLastD 0 ∧
           round2 ((ewmMean 20 closes).getLastD 0) > round2 ((ewmMean 40 closes).getLastD 0) ∧
           round2 ((ewmMean 10 closes).getLastD 0) > round2 ((ewmMean 20 closes).getLastD 0))) ∧
        ((∃ r, analyze_ema_weekly symbol closes = some r) ↔
          (round2 (closes.getLastD 0) > round2 ((ewmMean 10 closes).getLastD 0) ∧
           round2 (closes.getLastD 0) > round2 ((ewmMean 20 closes).getLastD 0) ∧
           round2 (closes.getLastD 0) > round2 ((ewmMean 40 closes).getLastD 0) ∧
           closes.dropLast.getLastD 0 < (ewmMean 10 closes).dropLast.getLastD 0 ∧
           round2 ((ewmMean 20 closes).getLastD 0) > round2 ((ewmMean 40 closes).getLastD 0) ∧
           round2 ((ewmMean 10 closes).getLastD 0) > round2 ((ewmMean 20 closes).getLastD 0))))) ∧
    (closes.length < 41 →
      analyze_ema_daily symbol closes = none ∧ analyze_ema_weekly symbol closes = none) ∧
    (∀ r, analyze_ema_daily symbol closes = some r → r.signal = "BULLISH") ∧
    (∀ r, analyze_ema_weekly symbol closes = some r → r.signal = "BULLISH") := by
  refine ⟨?_, ?_, ?_, ?_⟩
  · intro h
    constructor
    · rw [analyze_ema_daily_eq symbol closes h]
      split_ifs with hC
      · exact iff_of_true ⟨_, rfl⟩ hC
      · exact iff_of_false (by simp) hC
    · rw [analyze_ema_weekly_eq symbol closes h]
      split_ifs with hC
      · exact iff_of_true ⟨_, rfl⟩ hC
      · exact iff_of_false (by simp) hC
  · intro hlt
    constructor
    · simp [analyze_ema_daily, hlt]
    · simp [analyze_ema_weekly, hlt]
  · intro r hr
    by_cases h : 41 ≤ closes.length
    · rw [analyze_ema_daily_eq symbol closes h] at hr
      split_ifs at hr
      cases hr; rfl
    · rw [(by simp [analyze_ema_daily, show closes.length < 41 by omega] :
          analyze_ema_daily symbol closes = none)] at hr
      exact Option.noConfusion hr
  · intro r hr
    by_cases h : 41 ≤ closes.length
    · rw [analyze_ema_weekly_eq symbol closes h] at hr
      split_ifs at hr
      cases hr; rfl
    · rw [(by simp [analyze_ema_weekly, show closes.length < 41 by omega] :
          analyze_ema_weekly symbol closes = none)] at hr
      exact Option.noConfusion hr

/-- Witness for C1: on an empty series the precondition fails and both
evaluators yield no signal. -/
theorem ema_crossover_spec_witness :
    analyze_ema_daily "AAA" [] = none ∧ analyze_ema_weekly "AAA" [] = none :=
  (ema_crossover_spec "AAA" []).2.1 (by decide)

lemma sma_position_variants_agree (fetch : String → List ℚ) (interval : String) :
    get_sma_position fetch interval = _get_sma_position fetch interval := by
  unfold get_sma_position _get_sma_position
  by_cases hiv : interval = "1d" ∨ interval = "1h" ∨ interval = "15m"
  · rw [if_pos hiv, if_neg (not_not_intro hiv)]
    by_cases hc : fetch interval = [] ∨ (fetch interval).length < 51
    · rw [if_pos hc, if_pos hc]
    · rw [if_neg hc, if_neg hc]
      cases hsma : calculate_sma (fetch interval) 50 with
      | none => rfl
      | some smaCol =>
        dsimp only
        by_cases hrows :
            ((fetch interval).zip smaCol).filterMap (fun cs => cs.2.map fun v => (cs.1, v)) = []
        · rw [if_pos (by rw [hrows]; simp), if_pos hrows]
        · rw [if_neg (fun hlen => hrows (List.length_eq_zero.mp (Nat.lt_one_iff.mp hlen))),
            if_neg hrows]
  · rw [if_neg hiv, if_pos hiv]

/-- **C3.** The integrated multi-timeframe SMA50 evaluator computes the three
positions independently via `_get_sma_position`; it returns no signal when any
of the three is undefined, returns a record exactly when all three are
`"above"`, and any record it returns is bullish — it never emits a bearish
signal. -/
theorem sma50_integrated_spec (symbol : String) (fetch : String → List ℚ) :
    ((_get_sma_position fetch "1d").1 = none ∨ (_get_sma_position fetch "1h").1 = none ∨
      (_get_sma_position fetch "15m").1 = none → analyze_sma50 symbol fetch = none) ∧
    ((∃ r, analyze_sma50 symbol fetch = some r) ↔
      ((_get_sma_position fetch "1d").1 = some "above" ∧
       (_get_sma_position fetch "1h").1 = some "above" ∧
       (_get_sma_position fetch "15m").1 = some "above")) ∧
    (∀ r, analyze_sma50 symbol fetch = some r → r.signal = "BULLISH") := by
  refine ⟨?_, ?_, ?_⟩
  · intro h
    simp only [analyze_sma50]
    rw [if_pos h]
  · simp only [analyze_sma50]
    split_ifs with h1 h2
    · refine iff_of_false (by simp) ?_
      rintro ⟨ha, hb, hc⟩
      rcases h1 with h | h | h <;> simp_all
    · exact iff_of_true ⟨_, rfl⟩ h2
    · exact iff_of_false (by simp) h2
  · intro r hr
    simp only [analyze_sma50] at hr
    split_ifs at hr
    cases hr; rfl

/-- Witness for C3: when every fetch yields an empty frame all three
positions are undefined and the evaluator yields no signal. -/
theorem sma50_integrated_spec_witness :
    analyze_sma50 "AAA" (fun _ => []) = none :=
  (sma50_integrated_spec "AAA" (fun _ => [])).1 (by decide)

lemma analyze_sma50_none_of_not_above (symbol : String) (fetch : String → List ℚ)
    (h : (_get_sma_position fetch "1d").1 ≠ some "above" ∨
         (_get_sma_position fetch "1h").1 ≠ some "above" ∨
         (_get_sma_position fetch "15m").1 ≠ some "above") :
    analyze_sma50 symbol fetch = none := by
  simp only [analyze_sma50]
  split_ifs with h1 h2
  · rfl
  · rcases h with hx | hx | hx
    · exact absurd h2.1 hx
    · exact absurd h2.2.1 hx
    · exact absurd h2.2.2 hx
  · rfl

lemma analyze_multi_timeframe_not_bullish (symbol : String) (fetch : String → List ℚ)
    (h : (get_sma_position fetch "1d").1 ≠ some "above" ∨
         (get_sma_position fetch "1h").1 ≠ some "above" ∨
         (get_sma_position fetch "15m").1 ≠ some "above") :
    ∀ r, analyze_multi_timeframe symbol fetch = some r →
      r.Signal = "🔴 BEARISH (All Below SMA50)" := by
  intro r hr
  simp only [analyze_multi_timeframe] at hr
  split_ifs at hr with h1 h2 h3
  · rcases h with hx | hx | hx
    · exact absurd h2.1 hx
    · exact absurd h2.2.1 hx
    · exact absurd h2.2.2 hx
  · cases hr; rfl

/-- **C6.** The standalone evaluator `analyze_multi_timeframe` and the
integrated `analyze_sma50` agree on when a bullish all-above signal fires;
but on the all-below configuration the standalone variant returns a bearish
record while the integrated one returns no signal — the two evaluators are
not equivalent. -/
theorem sma50_variants_divergence (symbol : String) (fetch : String → List ℚ) :
    ((∃ r, analyze_sma50 symbol fetch = some r) ↔
      (∃ r, analyze_multi_timeframe symbol fetch = some r ∧
        r.Signal = "🟢 BULLISH (All Above SMA50)")) ∧
    ((get_sma_position fetch "1d").1 = some "below" ∧
     (get_sma_position fetch "1h").1 = some "below" ∧
     (get_sma_position fetch "15m").1 = some "below" →
      analyze_sma50 symbol fetch = none ∧
      ∃ r, analyze_multi_timeframe symbol fetch = some r ∧
        r.Signal = "🔴 BEARISH (All Below SMA50)") := by
  constructor
  · simp only [analyze_sma50, analyze_multi_timeframe, sma_position_variants_agree]
    split_ifs with h1 h2 h3
    · simp
    · constructor
      · intro _; exact ⟨_, rfl, rfl⟩
      · intro _; exact ⟨_, rfl⟩
    · simp
    · simp
  · rintro ⟨hd, hh, hm⟩
    have hd2 := hd; have hh2 := hh; have hm2 := hm
    rw [sma_position_variants_agree] at hd2 hh2 hm2
    constructor
    · exact analyze_sma50_none_of_not_above symbol fetch (Or.inl (by simp [hd2]))
    · simp [analyze_multi_timeframe, hd, hh, hm]

set_option maxRecDepth 10000 in
/-- Witness for C6: with 51 constant bars on every interval all three
positions are `"below"`, the standalone evaluator fires bearish and the
integrated one stays silent. -/
theorem sma50_variants_divergence_witness :
    analyze_sma50 "AAA" onesFetch = none ∧
    ∃ r, analyze_multi_timeframe "AAA" onesFetch = some r ∧
      r.Signal = "🔴 BEARISH (All Below SMA50)" :=
  (sma50_variants_divergence "AAA" onesFetch).2 (by with_unfolding_all decide)

/-- **C10.** In both SMA50 position computations the `"above"` position
requires the rounded latest close to be strictly greater than the rounded
SMA50; when the two rounded values are exactly equal the position is
`"below"`, and consequently no bullish multi-timeframe signal can fire for
that symbol — the integrated evaluator returns no signal and any record the
standalone evaluator returns is the bearish one. -/
theorem sma_rounded_tie_below (symbol : String) (fetch : String → List ℚ)
    (interval pos : String) (price sma : ℚ)
    (hiv : interval = "1d" ∨ interval = "1h" ∨ interval = "15m")
    (hpos : _get_sma_position fetch interval = (some pos, some price, some sma))
    (heq : price = sma) :
    pos = "below" ∧
    get_sma_position fetch interval = (some "below", some price, some sma) ∧
    analyze_sma50 symbol fetch = none ∧
    (∀ r, analyze_multi_timeframe symbol fetch = some r →
      r.Signal = "🔴 BEARISH (All Below SMA50)") := by
  have hbelow : pos = "below" := by
    unfold _get_sma_position at hpos
    rw [if_neg (not_not_intro hiv)] at hpos
    dsimp only at hpos
    split_ifs at hpos with hc
    · simp at hpos
    · cases hsma : calculate_sma (fetch interval) 50 with
      | none => rw [hsma] at hpos; simp at hpos
      | some smaCol =>
        rw [hsma] at hpos
        dsimp only at hpos
        split_ifs at hpos with hrows hgt
        · simp at hpos
        · simp only [Prod.mk.injEq, Option.some.injEq] at hpos
          obtain ⟨h1, h2, h3⟩ := hpos
          subst h2; subst h3
          exact absurd (heq ▸ hgt) (lt_irrefl _)
        · simp only [Prod.mk.injEq, Option.some.injEq] at hpos
          exact hpos.1.symm
  subst hbelow
  refine ⟨rfl, ?_, ?_, ?_⟩
  · rw [sma_position_variants_agree, hpos]
  · rcases hiv with rfl | rfl | rfl
    · exact analyze_sma50_none_of_not_above symbol fetch (Or.inl (by simp [hpos]))
    · exact analyze_sma50_none_of_not_above symbol fetch (Or.inr (Or.inl (by simp [hpos])))
    · exact analyze_sma50_none_of_not_above symbol fetch (Or.inr (Or.inr (by simp [hpos])))
  · rcases hiv with rfl | rfl | rfl
    · exact analyze_multi_timeframe_not_bullish symbol fetch
        (Or.inl (by rw [sma_position_variants_agree]; simp [hpos]))
    · exact analyze_multi_timeframe_not_bullish symbol fetch
        (Or.inr (Or.inl (by rw [sma_position_variants_agree]; simp [hpos])))
    · exact analyze_multi_timeframe_not_bullish symbol fetch
        (Or.inr (Or.inr (by rw [sma_position_variants_agree]; simp [hpos])))

set_option maxRecDepth 10000 in
/-- Witness for C10: 51 constant bars make the rounded close equal the
rounded SMA50 on the daily interval, so the integrated evaluator is silent. -/
theorem sma_rounded_tie_below_witness :
    analyze_sma50 "AAA" onesFetch = none :=
  (sma_rounded_tie_below "AAA" onesFetch "1d" "below" 1 1
    (Or.inl rfl) (by with_unfolding_all decide) rfl).2.2.1

/-- **C9.** When the worker finds the symbol universe empty the job moves
directly to `failed` with the explanatory message and nothing else happens:
the trace is the single failed state, in which every field set at creation is
unchanged — `progress` 0, `total` 0, `results` empty, `completed_at` null —
and no symbol is ever evaluated. -/
theorem empty_universe_fails (α : Type) (eval : String → Option α)
    (now jid scanType label started : String) :
    runScanStates eval now [] (initJob α jid scanType label started) =
      [{ job_id := jid, scan_type := scanType, label := label, status := "failed",
         progress := 0, total := 0, results := [], started_at := started,
         completed_at := none,
         error := some "top_indices_symbols.txt not found" }] := rfl

lemma loopStates_status {α : Type} (eval : String → Option α) :
    ∀ (syms : List String) (i : ℕ) (acc : List α) (j : Job α),
      ∀ s ∈ loopStates eval syms i acc j, s.status = j.status := by
  intro syms
  induction syms with
  | nil => intro i acc j s hs; simp [loopStates] at hs
  | cons a rest ih =>
    intro i acc j s hs
    simp only [loopStates, List.mem_cons] at hs
    rcases hs with rfl | hs
    · rfl
    · have h2 := ih (i + 1) (acc ++ (eval a).toList) _ s hs
      exact h2

lemma loopStates_bounds {α : Type} (eval : String → Option α) :
    ∀ (syms : List String) (i : ℕ) (acc : List α) (j : Job α),
      acc.length + 1 ≤ i → i + syms.length ≤ j.total + 1 →
      ∀ s ∈ loopStates eval syms i acc j,
        s.progress ≤ s.total ∧ s.results.length ≤ s.progress := by
  intro syms
  induction syms with
  | nil => intro i acc j _ _ s hs; simp [loopStates] at hs
  | cons a rest ih =>
    intro i acc j hacc htot s hs
    simp only [loopStates, List.mem_cons] at hs
    have hlen : (acc ++ (eval a).toList).length ≤ acc.length + 1 := by
      rcases eval a with _ | r <;> simp
    rcases hs with rfl | hs
    · refine ⟨?_, ?_⟩
      · show i ≤ j.total
        simp only [List.length_cons] at htot
        omega
      · show (acc ++ (eval a).toList).length ≤ i
        omega
    · refine ih (i + 1) _ _ ?_ ?_ s hs
      · show (acc ++ (eval a).toList).length + 1 ≤ i + 1
        omega
      · show i + 1 + rest.length ≤ j.total + 1
        simp only [List.length_cons] at htot
        omega

lemma loopStates_chain {α : Type} (eval : String → Option α) :
    ∀ (syms : List String) (i : ℕ) (acc : List α) (j : Job α), j.progress ≤ i →
      List.Chain' (fun a b => a.progress ≤ b.progress ∧ b.status = a.status)
        (j :: loopStates eval syms i acc j) := by
  intro syms
  induction syms with
  | nil => intro i acc j _; simp [loopStates]
  | cons a rest ih =>
    intro i acc j hj
    simp only [loopStates]
    rw [List.chain'_cons]
    exact ⟨⟨hj, rfl⟩, ih (i + 1) _ _ (Nat.le_succ i)⟩

lemma getLastD_self_mem {β : Type} :
    ∀ (l : List β) (d : β), l.getLastD d ∈ l ∨ l.getLastD d = d
  | [], _ => Or.inr rfl
  | a :: l, d => by
    rw [List.getLastD_cons]
    rcases getLastD_self_mem l a with h | h
    · exact Or.inl (List.mem_cons_of_mem a h)
    · exact Or.inl (by rw [h]; exact List.mem_cons_self a l)

lemma getLast?_cons_getLastD {β : Type} :
    ∀ (l : List β) (a : β), (a :: l).getLast? = some (l.getLastD a)
  | [], a => rfl
  | b :: l, a => by
    rw [List.getLast?_cons_cons, getLast?_cons_getLastD l b, List.getLastD_cons]

lemma runScanStates_spec {α : Type} (eval : String → Option α) (now : String)
    (symbols : List String) (j : Job α) (hp : j.progress = 0) (ht : j.total = 0)
    (hr : j.results = []) (hst : j.status = "queued") :
    (∀ s ∈ j :: runScanStates eval now symbols j,
      s.progress ≤ s.total ∧ s.results.length ≤ s.progress) ∧
    List.Chain' (fun a b => a.progress ≤ b.progress ∧
      ((a.status = "completed" ∨ a.status = "failed") → b.status = a.status))
      (j :: runScanStates eval now symbols j) := by
  by_cases hsym : symbols = []
  · subst hsym
    have hrw : runScanStates eval now [] j = [failedUpdate j] := rfl
    rw [hrw]
    constructor
    · intro s hs
      rcases List.mem_cons.mp hs with rfl | hs2
      · exact ⟨by omega, by simp [hr, hp]⟩
      · rcases List.mem_singleton.mp hs2 with rfl
        exact ⟨by simp [failedUpdate, hp, ht], by simp [failedUpdate, hp, hr]⟩
    · rw [List.chain'_pair]
      refine ⟨by simp [failedUpdate], fun hcon => ?_⟩
      rw [hst] at hcon
      rcases hcon with h | h <;> exact absurd h (by decide)
  · have hrw : runScanStates eval now symbols j =
        runningUpdate symbols.length j ::
          (loopStates eval symbols 1 [] (runningUpdate symbols.length j) ++
            [completedUpdate now
              ((loopStates eval symbols 1 [] (runningUpdate symbols.length j)).getLastD
                (runningUpdate symbols.length j))]) := by
      simp only [runScanStates, if_neg hsym]
    rw [hrw]
    have hbounds := loopStates_bounds eval symbols 1 [] (runningUpdate symbols.length j)
      (by simp) (by show 1 + symbols.length ≤ symbols.length + 1; omega)
    have hstat := loopStates_status eval symbols 1 [] (runningUpdate symbols.length j)
    have hchain := loopStates_chain eval symbols 1 [] (runningUpdate symbols.length j)
      (by show (0 : ℕ) ≤ 1; omega)
    have hlast := getLastD_self_mem
      (loopStates eval symbols 1 [] (runningUpdate symbols.length j))
      (runningUpdate symbols.length j)
    have hlaststat :
        ((loopStates eval symbols 1 [] (runningUpdate symbols.length j)).getLastD
          (runningUpdate symbols.length j)).status = "running" := by
      rcases hlast with h | h
      · exact hstat _ h
      · rw [h]; rfl
    have hlastinv :
        ((loopStates eval symbols 1 [] (runningUpdate symbols.length j)).getLastD
            (runningUpdate symbols.length j)).progress ≤
          ((loopStates eval symbols 1 [] (runningUpdate symbols.length j)).getLastD
            (runningUpdate symbols.length j)).total ∧
        ((loopStates eval symbols 1 [] (runningUpdate symbols.length j)).getLastD
            (runningUpdate symbols.length j)).results.length ≤
          ((loopStates eval symbols 1 [] (runningUpdate symbols.length j)).getLastD
            (runningUpdate symbols.length j)).progress := by
      rcases hlast with h | h
      · exact hbounds _ h
      · rw [h]
        exact ⟨by simp [runningUpdate], by simp [runningUpdate, hr]⟩
    constructor
    · intro s hs
      rcases List.mem_cons.mp hs with rfl | hs2
      · exact ⟨by omega, by simp [hr, hp]⟩
      rcases List.mem_cons.mp hs2 with rfl | hs3
      · exact ⟨by simp [runningUpdate], by simp [runningUpdate, hr]⟩
      rcases List.mem_append.mp hs3 with hs4 | hs5
      · exact hbounds s hs4
      · rcases List.mem_singleton.mp hs5 with rfl
        exact hlastinv
    · rw [List.chain'_cons]
      constructor
      · refine ⟨by rw [hp]; exact Nat.zero_le _, fun hcon => ?_⟩
        rw [hst] at hcon
        rcases hcon with h | h <;> exact absurd h (by decide)
      · rw [← List.cons_append, List.chain'_append]
        refine ⟨hchain.imp fun a b hab => ⟨hab.1, fun _ => hab.2⟩,
          List.chain'_singleton _, ?_⟩
        intro x hx y hy
        rw [getLast?_cons_getLastD] at hx
        simp only [Option.mem_def, Option.some.injEq, List.head?_cons] at hx hy
        subst hx; subst hy
        refine ⟨le_refl _, fun hcon => ?_⟩
        rw [hlaststat] at hcon
        rcases hcon with h | h <;> exact absurd h (by decide)

/-- **C4.** For every job created by `start_scan` and driven by `_run_scan`,
over the whole sequence of worker updates the progress counter is
monotonically non-decreasing and never exceeds `total`, the length of the
results list never exceeds `progress`, and no update ever follows a
`completed` or `failed` state — terminal states are never left. -/
theorem job_invariants (α : Type) (eval : String → Option α)
    (now jid scanType label started : String) (symbols : List String) :
    (∀ s ∈ initJob α jid scanType label started ::
        runScanStates eval now symbols (initJob α jid scanType label started),
      s.progress ≤ s.total ∧ s.results.length ≤ s.progress) ∧
    List.Chain' (fun a b => a.progress ≤ b.progress ∧
      ((a.status = "completed" ∨ a.status = "failed") → b.status = a.status))
      (initJob α jid scanType label started ::
        runScanStates eval now symbols (initJob α jid scanType label started)) :=
  runScanStates_spec eval now symbols (initJob α jid scanType label started) rfl rfl rfl rfl

/-- Witness for C4 at a concrete one-symbol scan whose evaluator finds
nothing: the freshly created job already satisfies the bound invariants. -/
theorem job_invariants_witness :
    (initJob ℕ "j1" "ema_daily" "EMA Daily" "t0").progress ≤
      (initJob ℕ "j1" "ema_daily" "EMA Daily" "t0").total ∧
    (initJob ℕ "j1" "ema_daily" "EMA Daily" "t0").results.length ≤
      (initJob ℕ "j1" "ema_daily" "EMA Daily" "t0").progress :=
  (job_invariants ℕ (fun _ => none) "t1" "j1" "ema_daily" "EMA Daily" "t0" ["AAA"]).1
    _ (List.mem_cons_self _ _)

/-- **C5.** For every existing job, the status query — and every entry of the
jobs listing — computes `percent` as `round(progress/total*100, 1)` when
`total` is non-zero and as `0` when `total` is zero, so the division is
always guarded. -/
theorem percent_guarded (α : Type) (store : List (String × Job α)) (jid : String)
    (job : Job α) (hfind : store.lookup jid = some job) :
    (∃ resp, scan_status store jid = .ok resp ∧
      resp.percent = if job.total = 0 then 0
        else round1 ((job.progress : ℚ) / job.total * 100)) ∧
    (∀ s ∈ list_jobs store, ∃ e ∈ store,
      s.percent = if (e.2).total = 0 then 0
        else round1 (((e.2).progress : ℚ) / (e.2).total * 100)) := by
  constructor
  · simp only [scan_status, hfind]
    refine ⟨_, rfl, ?_⟩
    show (if job.total ≠ 0 then round1 ((job.progress : ℚ) / job.total * 100) else 0) = _
    by_cases htot : job.total = 0
    · rw [if_neg (not_not_intro htot), if_pos htot]
    · rw [if_pos htot, if_neg htot]
  · intro s hs
    simp only [list_jobs, List.mem_mergeSort, List.mem_map] at hs
    obtain ⟨e, he, rfl⟩ := hs
    refine ⟨e, he, ?_⟩
    show (if (e.2).total ≠ 0 then round1 (((e.2).progress : ℚ) / (e.2).total * 100) else 0) = _
    by_cases htot : (e.2).total = 0
    · rw [if_neg (not_not_intro htot), if_pos htot]
    · rw [if_pos htot, if_neg htot]

/-- Witness for C5 on a store holding one freshly created job. -/
theorem percent_guarded_witness :
    ∃ resp, scan_status [("j1", initJob ℕ "j1" "sma50" "SMA50 Multi-TF" "t0")] "j1" =
        .ok resp ∧
      resp.percent = if (initJob ℕ "j1" "sma50" "SMA50 Multi-TF" "t0").total = 0 then 0
        else round1 (((initJob ℕ "j1" "sma50" "SMA50 Multi-TF" "t0").progress : ℚ) /
          (initJob ℕ "j1" "sma50" "SMA50 Multi-TF" "t0").total * 100) :=
  (percent_guarded ℕ [("j1", initJob ℕ "j1" "sma50" "SMA50 Multi-TF" "t0")] "j1"
    (initJob ℕ "j1" "sma50" "SMA50 Multi-TF" "t0") (by decide)).1

/-- **C8.** For every job id absent from the store, both the status query and
the results query fail with the not-found condition rather than returning a
default payload; and for every valid scan type with no completed scan in the
process lifetime, the latest query fails with not-found. -/
theorem not_found_guards (α : Type) (store : List (String × Job α))
    (latest : List (String × Snapshot α)) (jid scanType : String)
    (hjid : store.lookup jid = none)
    (hst : scanType = "ema_daily" ∨ scanType = "ema_weekly" ∨ scanType = "sma50")
    (hlatest : latest.lookup scanType = none) :
    scan_status store jid = .error (.notFound "Job not found") ∧
    scan_results store jid = .error (.notFound "Job not found") ∧
    latest_scan_results latest scanType =
      .error (.notFound "No completed scan found for this type yet. Run a scan first.") := by
  refine ⟨?_, ?_, ?_⟩
  · simp only [scan_status, hjid]
  · simp only [scan_results, hjid]
  · simp only [latest_scan_results, hlatest]
    rw [if_neg (not_not_intro hst)]

/-- Witness for C8: empty stores, an unknown job id and a never-completed
scan type. -/
theorem not_found_guards_witness :
    scan_status ([] : List (String × Job ℕ)) "nope" = .error (.notFound "Job not found") ∧
    scan_results ([] : List (String × Job ℕ)) "nope" = .error (.notFound "Job not found") ∧
    latest_scan_results ([] : List (String × Snapshot ℕ)) "sma50" =
      .error (.notFound "No completed scan found for this type yet. Run a scan first.") :=
  not_found_guards ℕ [] [] "nope" "sma50" rfl (Or.inr (Or.inr rfl)) rfl
